import Mathlib

/-!
Verification of the affordability calculator in `app.py` / `app2.py`:
a log-normal income-distribution model, a fixed-rate mortgage minimum-income
calculation, a regional parameter table, and a regional comparison loop.
Floating-point arithmetic in the scripts is modelled over the real numbers.
-/

open Real

noncomputable section

/-- Distribution parameter mu, from `app.py` line 22 (`mu, sigma = 10.45, 0.95`). -/
def mu : ℝ := 10.45

/-- Distribution parameter sigma, from `app.py` line 22. -/
def sigma : ℝ := 0.95

/-- Distribution scale, from `app.py` line 23 (`scale = np.exp(mu)`). -/
def scale : ℝ := Real.exp mu

/-- Embedding of `lognorm_cdf` (`app.py` lines 29-31, identical in `app2.py`
lines 32-34):
`z = (log x - log scale)/s`;
result `0.5 * (1 + tanh(sqrt(2)*z/2) + sqrt(2/pi) * exp(-z^2/2))`. -/
def lognorm_cdf (x s sc : ℝ) : ℝ :=
  let z := (Real.log x - Real.log sc) / s
  0.5 * (1 + Real.tanh (Real.sqrt 2 * z / 2) + Real.sqrt (2 / π) * Real.exp (-z ^ 2 / 2))

/-- Embedding of the population estimator of `app.py` line 74
(`prob_affordable = 1 - lognorm_cdf(max_income_needed, sigma, scale)`),
as a function of the required income. -/
def prob_affordable (income : ℝ) : ℝ := 1 - lognorm_cdf income sigma scale

/-- Embedding of `calculate_max_affordable` (`app.py` lines 37-48).
The amortization (in years, `25` at every call site) is an integer, and the
`(1 + monthly_rate) ** n_payments` power is an integer power. -/
def calculate_max_affordable (price down_payment_pct mortgage_rate : ℝ)
    (amortization : ℤ) : ℝ :=
  let down_payment := price * down_payment_pct
  let loan := price - down_payment
  let monthly_rate := mortgage_rate / 12
  let n_payments := amortization * 12
  let monthly_payment :=
    loan * (monthly_rate * (1 + monthly_rate) ^ n_payments) /
      ((1 + monthly_rate) ^ n_payments - 1)
  monthly_payment * 12 / 0.28

/-- Embedding of `calculate_max_affordable` of `app2.py` (lines 41-48): the same
computation, returning the pair `(annual_income_needed, down_payment)`. -/
def calculate_max_affordable2 (price down_payment_pct mortgage_rate : ℝ)
    (amortization : ℤ) : ℝ × ℝ :=
  let down_payment := price * down_payment_pct
  let loan := price - down_payment
  let monthly_rate := mortgage_rate / 12
  let n_payments := amortization * 12
  let monthly_payment :=
    loan * (monthly_rate * (1 + monthly_rate) ^ n_payments) /
      ((1 + monthly_rate) ^ n_payments - 1)
  (monthly_payment * 12 / 0.28, down_payment)

/-- Per-region parameters, the value type of the `REGIONS` dict
(`app.py` lines 13-19). -/
structure RegionData where
  down_payment : ℝ
  rate : ℝ
  first_time : ℝ
  pop : ℝ
  incentive : ℝ

/-- Embedding of the `REGIONS` dict of `app.py` lines 13-19, in the insertion
order of the dict literal (Python dicts iterate in insertion order). -/
def REGIONS : List (String × RegionData) :=
  [("Ontario", ⟨0.05, 0.045, 0.05, 15000000, 0.95⟩),
   ("BC", ⟨0.05, 0.048, 0.05, 5300000, 0.90⟩),
   ("Alberta", ⟨0.05, 0.042, 0.05, 4500000, 1.00⟩),
   ("Quebec", ⟨0.05, 0.043, 0.03, 9000000, 1.00⟩),
   ("National", ⟨0.05, 0.045, 0.05, 20000000, 0.95⟩)]

/-- One row of the regional comparison table (`app.py` lines 123-128), with the
numeric values (the Python code additionally formats them as display strings). -/
structure ComparisonRow where
  region : String
  min_income_needed : ℝ
  can_afford : ℝ
  pct_population : ℝ

/-- Embedding of the regional-comparison loop of `app.py` lines 118-131:
for each entry of `REGIONS` in order, one row computed from
`calculate_max_affordable(home_price, data["first_time"], data["rate"])`
(amortization left at its default 25) and `1 - lognorm_cdf(...)`. -/
def comparison_data (home_price : ℝ) : List ComparisonRow :=
  REGIONS.map fun rd =>
    let income_needed := calculate_max_affordable home_price rd.2.first_time rd.2.rate 25
    let prob := 1 - lognorm_cdf income_needed sigma scale
    { region := rd.1
      min_income_needed := income_needed
      can_afford := prob * rd.2.pop
      pct_population := prob * 100 }

lemma scale_pos : 0 < scale := Real.exp_pos mu

lemma cdf_at_scale : lognorm_cdf scale sigma scale = 0.5 * (1 + Real.sqrt (2 / π)) := by
  simp only [lognorm_cdf]
  rw [sub_self, zero_div]
  norm_num

lemma cdf_at_z (c : ℝ) :
    lognorm_cdf (scale * Real.exp (c * sigma)) sigma scale =
      0.5 * (1 + Real.tanh (Real.sqrt 2 * c / 2) +
        Real.sqrt (2 / π) * Real.exp (-c ^ 2 / 2)) := by
  simp only [lognorm_cdf]
  have h1 : Real.log (scale * Real.exp (c * sigma)) = Real.log scale + c * sigma := by
    rw [Real.log_mul scale_pos.ne' (Real.exp_ne_zero _), Real.log_exp]
  rw [h1]
  have hs : sigma ≠ 0 := by unfold sigma; norm_num
  have hz : (Real.log scale + c * sigma - Real.log scale) / sigma = c := by
    field_simp
  rw [hz]

lemma sqrt_two_div_pi_lb : (79 : ℝ) / 100 < Real.sqrt (2 / π) := by
  rw [show (79 : ℝ) / 100 = Real.sqrt ((79 / 100) ^ 2) by
    rw [Real.sqrt_sq (by norm_num)]]
  apply Real.sqrt_lt_sqrt (by norm_num)
  rw [lt_div_iff₀ Real.pi_pos]
  nlinarith [Real.pi_lt_d2]

lemma sqrt_two_div_pi_ub : Real.sqrt (2 / π) < 4 / 5 := by
  rw [Real.sqrt_lt' (by norm_num)]
  rw [div_lt_iff₀ Real.pi_pos]
  nlinarith [Real.pi_gt_d2]

lemma tanh_eq_exp (x : ℝ) :
    Real.tanh x = (Real.exp x - Real.exp (-x)) / (Real.exp x + Real.exp (-x)) := by
  rw [Real.tanh_eq_sinh_div_cosh, Real.sinh_eq, Real.cosh_eq]
  have h : Real.exp x + Real.exp (-x) ≠ 0 := by positivity
  field_simp

lemma tanh_lt_one_all (x : ℝ) : Real.tanh x < 1 := by
  rw [tanh_eq_exp]
  rw [div_lt_one (by positivity)]
  linarith [Real.exp_pos (-x)]

lemma sqrt2_gt_14 : (1.4 : ℝ) < Real.sqrt 2 := by
  rw [show (1.4 : ℝ) = Real.sqrt (1.4 ^ 2) by rw [Real.sqrt_sq (by norm_num)]]
  apply Real.sqrt_lt_sqrt (by norm_num)
  norm_num

lemma exp_sqrt2_gt_four : (4 : ℝ) < Real.exp (Real.sqrt 2) := by
  have hlog : Real.log 4 = 2 * Real.log 2 := by
    rw [show (4 : ℝ) = 2 ^ (2 : ℕ) by norm_num, Real.log_pow]
    push_cast
    ring
  have h2 : 2 * Real.log 2 < Real.sqrt 2 := by
    have := Real.log_two_lt_d9
    have := sqrt2_gt_14
    linarith
  calc (4 : ℝ) = Real.exp (Real.log 4) := (Real.exp_log (by norm_num)).symm
    _ = Real.exp (2 * Real.log 2) := by rw [hlog]
    _ < Real.exp (Real.sqrt 2) := Real.exp_lt_exp.mpr h2

lemma tanh_half_sqrt2_lb : (3 : ℝ) / 5 < Real.tanh (Real.sqrt 2 / 2) := by
  rw [tanh_eq_exp]
  have hE : 0 < Real.exp (Real.sqrt 2 / 2) := Real.exp_pos _
  have hE' : 0 < Real.exp (-(Real.sqrt 2 / 2)) := Real.exp_pos _
  have hprod : Real.exp (Real.sqrt 2 / 2) * Real.exp (-(Real.sqrt 2 / 2)) = 1 := by
    rw [← Real.exp_add]
    simp
  have hsq : Real.exp (Real.sqrt 2 / 2) * Real.exp (Real.sqrt 2 / 2) =
      Real.exp (Real.sqrt 2) := by
    rw [← Real.exp_add]
    congr 1
    ring
  have h4 : (4 : ℝ) < Real.exp (Real.sqrt 2 / 2) * Real.exp (Real.sqrt 2 / 2) := by
    rw [hsq]
    exact exp_sqrt2_gt_four
  rw [lt_div_iff₀ (by positivity)]
  nlinarith [hE, hE', hprod, h4]

lemma exp_neg_half_lb : (3 : ℝ) / 5 < Real.exp (-(1 / 2)) := by
  have hs : Real.exp (1 / 2) * Real.exp (1 / 2) = Real.exp 1 := by
    rw [← Real.exp_add]
    norm_num
  have hub : Real.exp (1 / 2) < 5 / 3 := by
    nlinarith [Real.exp_pos (1 / 2), Real.exp_one_lt_d9, hs]
  rw [Real.exp_neg]
  have hI : Real.exp (1 / 2) * (Real.exp (1 / 2))⁻¹ = 1 :=
    mul_inv_cancel₀ (Real.exp_pos _).ne'
  nlinarith [hub, Real.exp_pos (1 / 2), hI, inv_pos.mpr (Real.exp_pos (1 / 2))]

lemma exp_neg_92_ub : Real.exp (-(9 / 2)) < 1 / 15 := by
  have h1 : (5 : ℝ) / 2 ≤ Real.exp (3 / 2) := by
    have := Real.add_one_le_exp (3 / 2 : ℝ)
    linarith
  have h2 : Real.exp (3 / 2) * Real.exp (3 / 2) * Real.exp (3 / 2) = Real.exp (9 / 2) := by
    rw [← Real.exp_add, ← Real.exp_add]
    norm_num
  have h3 : (15 : ℝ) < Real.exp (9 / 2) := by
    nlinarith [h1, Real.exp_pos (3 / 2)]
  rw [Real.exp_neg]
  have hI : Real.exp (9 / 2) * (Real.exp (9 / 2))⁻¹ = 1 :=
    mul_inv_cancel₀ (Real.exp_pos _).ne'
  nlinarith [h3, hI, inv_pos.mpr (Real.exp_pos (9 / 2))]

/-- C1 (code divergence): at x = scale (the distribution's median) the code's
cumulative evaluates to (1 + sqrt(2/pi))/2, about 0.899, so it misses the
claimed value 0.5 by far more than the 1e-3 tolerance. -/
theorem C1_cdf_at_scale_not_half :
    1 / 1000 < |lognorm_cdf scale sigma scale - 0.5| := by
  rw [cdf_at_scale]
  have h := sqrt_two_div_pi_lb
  rw [abs_of_pos (by nlinarith)]
  nlinarith

/-- C2 (code divergence): the code's cumulative is not non-decreasing. At the
incomes with z = 1 and z = 3 (x1 = scale*e^sigma < x2 = scale*e^(3*sigma)) the
cumulative strictly decreases, and consequently the fraction affording
`1 - cumulative` strictly increases with the required income. -/
theorem C2_cdf_not_monotone :
    scale * Real.exp (1 * sigma) < scale * Real.exp (3 * sigma) ∧
      lognorm_cdf (scale * Real.exp (3 * sigma)) sigma scale <
        lognorm_cdf (scale * Real.exp (1 * sigma)) sigma scale ∧
      prob_affordable (scale * Real.exp (1 * sigma)) <
        prob_affordable (scale * Real.exp (3 * sigma)) := by
  have hmain : lognorm_cdf (scale * Real.exp (3 * sigma)) sigma scale <
      lognorm_cdf (scale * Real.exp (1 * sigma)) sigma scale := by
    rw [cdf_at_z 1, cdf_at_z 3]
    have e1 : Real.sqrt 2 * 1 / 2 = Real.sqrt 2 / 2 := by ring
    have e2 : -(1 : ℝ) ^ 2 / 2 = -(1 / 2) := by norm_num
    have e3 : -(3 : ℝ) ^ 2 / 2 = -(9 / 2) := by norm_num
    rw [e1, e2, e3]
    have hT1 := tanh_half_sqrt2_lb
    have hT3 := tanh_lt_one_all (Real.sqrt 2 * 3 / 2)
    have h6 : (79 : ℝ) / 100 * (3 / 5) < Real.sqrt (2 / π) * Real.exp (-(1 / 2)) :=
      mul_lt_mul sqrt_two_div_pi_lb exp_neg_half_lb.le (by norm_num) (Real.sqrt_nonneg _)
    have h7 : Real.sqrt (2 / π) * Real.exp (-(9 / 2)) < 4 / 5 * (1 / 15) :=
      mul_lt_mul sqrt_two_div_pi_ub exp_neg_92_ub.le (Real.exp_pos _) (by norm_num)
    nlinarith [hT1, hT3, h6, h7]
  refine ⟨?_, hmain, ?_⟩
  · apply mul_lt_mul_of_pos_left _ scale_pos
    apply Real.exp_lt_exp.mpr
    unfold sigma
    norm_num
  · unfold prob_affordable
    linarith

/-- The rate/term-dependent factor of `calculate_max_affordable`: the result
factors as `price * (1 - d)` times this quantity. -/
def rate_term_factor (r : ℝ) (a : ℤ) : ℝ :=
  (r / 12 * (1 + r / 12) ^ (a * 12)) / ((1 + r / 12) ^ (a * 12) - 1) * 12 / 0.28

lemma calc_factored (price d r : ℝ) (a : ℤ) :
    calculate_max_affordable price d r a = price * (1 - d) * rate_term_factor r a := by
  unfold calculate_max_affordable rate_term_factor
  ring

lemma rate_term_factor_pos {r : ℝ} {a : ℤ} (hr : 0 < r) (ha : 0 < a) :
    0 < rate_term_factor r a := by
  have hb : (1 : ℝ) < 1 + r / 12 := by linarith
  have hX1 : (1 : ℝ) < (1 + r / 12) ^ (a * 12) := one_lt_zpow₀ hb (by omega)
  have h1 : 0 < r / 12 * (1 + r / 12) ^ (a * 12) := by
    apply mul_pos (by linarith)
    linarith
  have h2 : (0 : ℝ) < (1 + r / 12) ^ (a * 12) - 1 := by linarith
  unfold rate_term_factor
  have h3 := div_pos h1 h2
  have h4 : 0 < r / 12 * (1 + r / 12) ^ (a * 12) / ((1 + r / 12) ^ (a * 12) - 1) * 12 := by
    linarith
  exact div_pos h4 (by norm_num)

lemma rate_term_factor_neg {r : ℝ} {a : ℤ} (hr : 0 < r) (ha : a < 0) :
    rate_term_factor r a < 0 := by
  have hb : (1 : ℝ) < 1 + r / 12 := by linarith
  have hX1 : (1 + r / 12) ^ (a * 12) < 1 := zpow_lt_one_of_neg₀ hb (by omega)
  have hX0 : (0 : ℝ) < (1 + r / 12) ^ (a * 12) := zpow_pos (by linarith) _
  have h1 : 0 < r / 12 * (1 + r / 12) ^ (a * 12) := mul_pos (by linarith) hX0
  have h2 : (1 + r / 12) ^ (a * 12) - 1 < 0 := by linarith
  unfold rate_term_factor
  have h3 := div_neg_of_pos_of_neg h1 h2
  have h4 : r / 12 * (1 + r / 12) ^ (a * 12) / ((1 + r / 12) ^ (a * 12) - 1) * 12 < 0 := by
    linarith
  exact div_neg_of_neg_of_pos h4 (by norm_num)

/-- C3: for positive price, down-payment fraction in [0,1), positive rate and
positive amortization, `calculate_max_affordable` returns exactly
`loan * m * (1+m)^n / ((1+m)^n - 1) * 12 / 0.28` with `loan = price*(1-d)`,
`m = r/12`, `n = a*12`: the standard fixed-rate amortizing-loan payment formula
divided by the 0.28 housing ratio. -/
theorem C3_payment_formula (price d r : ℝ) (a : ℤ)
    (hp : 0 < price) (hd0 : 0 ≤ d) (hd1 : d < 1) (hr : 0 < r) (ha : 0 < a) :
    calculate_max_affordable price d r a =
      price * (1 - d) * (r / 12) * (1 + r / 12) ^ (a * 12) /
        ((1 + r / 12) ^ (a * 12) - 1) * 12 / 0.28 := by
  unfold calculate_max_affordable
  ring

/-- Witness for C3 at the concrete scenario inputs. -/
theorem C3_payment_formula_witness :
    calculate_max_affordable 800000 0.05 0.045 25 =
      800000 * (1 - 0.05) * (0.045 / 12) * (1 + 0.045 / 12) ^ ((25 : ℤ) * 12) /
        ((1 + 0.045 / 12) ^ ((25 : ℤ) * 12) - 1) * 12 / 0.28 :=
  C3_payment_formula 800000 0.05 0.045 25 (by norm_num) (by norm_num) (by norm_num)
    (by norm_num) (by norm_num)

/-- C4 (code divergence): `calculate_max_affordable` has no zero-rate special
case. With `annualRate = 0` both the numerator and the denominator of the
payment expression are `0` (Python raises `ZeroDivisionError`; under the
embedding's total real division the function returns `0`), so at the claimed
failing input the function does not return the straight-line value, which is
nonzero. -/
theorem C4_zero_rate_not_straight_line :
    calculate_max_affordable 800000 0.05 0 25 = 0 ∧
      (800000 : ℝ) * (1 - 0.05) / 25 * 12 / 0.28 ≠ 0 := by
  constructor
  · unfold calculate_max_affordable
    norm_num
  · norm_num

/-- C5 (code divergence): with a down-payment fraction above 1 the loan is
negative and `calculate_max_affordable` returns a negative annual income, not
the `0` required by the claim. -/
theorem C5_cash_purchase_negative :
    calculate_max_affordable 100000 2 0.045 25 < 0 := by
  rw [calc_factored]
  have hK : 0 < rate_term_factor 0.045 25 :=
    rate_term_factor_pos (by norm_num) (by norm_num)
  nlinarith [hK]

/-- C7 (amended): `calculate_max_affordable` performs no validation of the
amortization: for negative years it silently returns a negative number, and
for zero years the denominator vanishes, so the result is `0` under total real
division (Python raises `ZeroDivisionError`); no InvalidInput error is ever
reported. -/
theorem C7_no_validation (price d r : ℝ) (a : ℤ)
    (hp : 0 < price) (hd0 : 0 ≤ d) (hd1 : d < 1) (hr : 0 < r) :
    (a < 0 → calculate_max_affordable price d r a < 0) ∧
      calculate_max_affordable price d r 0 = 0 := by
  constructor
  · intro ha
    rw [calc_factored]
    have hK : rate_term_factor r a < 0 := rate_term_factor_neg hr ha
    have hpd : 0 < price * (1 - d) := mul_pos hp (by linarith)
    exact mul_neg_of_pos_of_neg hpd hK
  · unfold calculate_max_affordable
    norm_num

/-- Witness for C7 at concrete inputs. -/
theorem C7_no_validation_witness :
    calculate_max_affordable 100000 0.05 0.045 (-2) < 0 ∧
      calculate_max_affordable 100000 0.05 0.045 0 = 0 := by
  have h := C7_no_validation 100000 0.05 0.045 (-2) (by norm_num) (by norm_num)
    (by norm_num) (by norm_num)
  exact ⟨h.1 (by norm_num), h.2⟩

/-- C7 counterexample: at amortization `-1` (an input the claim says must fail
with an InvalidInput error) the function returns an ordinary negative number
instead of reporting any error. -/
theorem C7_counterexample :
    calculate_max_affordable 800000 0.05 0.045 (-1) < 0 := by
  rw [calc_factored]
  have hK : rate_term_factor 0.045 (-1) < 0 :=
    rate_term_factor_neg (by norm_num) (by norm_num)
  nlinarith [hK]

/-- C8: with rate and amortization fixed, `calculate_max_affordable` is strictly
increasing in the price (for down-payment fraction in [0,1)), and with price,
rate and amortization fixed it is non-increasing in the down-payment
fraction. -/
theorem C8_monotone (p p1 p2 d d1 d2 r : ℝ) (a : ℤ) (hr : 0 < r) (ha : 0 < a) :
    (0 ≤ d → d < 1 → 0 < p1 → p1 < p2 →
      calculate_max_affordable p1 d r a < calculate_max_affordable p2 d r a) ∧
    (0 < p → d1 ≤ d2 →
      calculate_max_affordable p d2 r a ≤ calculate_max_affordable p d1 r a) := by
  have hK := rate_term_factor_pos hr ha
  constructor
  · intro hd0 hd1 hp1 h12
    rw [calc_factored, calc_factored]
    have hpos : 0 < (1 - d) * rate_term_factor r a := mul_pos (by linarith) hK
    nlinarith [mul_pos (sub_pos.mpr h12) hpos]
  · intro hp hd12
    rw [calc_factored, calc_factored]
    nlinarith [mul_nonneg (mul_pos hp hK).le (sub_nonneg.mpr hd12)]

/-- Witness for C8 at concrete inputs. -/
theorem C8_monotone_witness :
    (calculate_max_affordable 100000 0.05 0.045 25 <
      calculate_max_affordable 200000 0.05 0.045 25) ∧
    (calculate_max_affordable 100000 0.1 0.045 25 ≤
      calculate_max_affordable 100000 0.05 0.045 25) :=
  ⟨(C8_monotone 0 100000 200000 0.05 0 0 0.045 25 (by norm_num) (by norm_num)).1
      (by norm_num) (by norm_num) (by norm_num) (by norm_num),
   (C8_monotone 100000 0 0 0 0.05 0.1 0.045 25 (by norm_num) (by norm_num)).2
      (by norm_num) (by norm_num)⟩

lemma calc_800k_key (q : ℝ) (h1 : q - 1 ≠ 0)
    (hq : ((1 : ℝ) + 0.045 / 12) ^ ((25 : ℤ) * 12) = q) :
    calculate_max_affordable 800000 0.05 0.045 25 * (0.28 * (q - 1)) = 34200 * q := by
  simp only [calculate_max_affordable]
  rw [hq]
  field_simp
  ring

lemma calc_800k_bounds :
    180000 < calculate_max_affordable 800000 0.05 0.045 25 ∧
      calculate_max_affordable 800000 0.05 0.045 25 < 182000 := by
  have hqeq : ((1 : ℝ) + 0.045 / 12) ^ ((25 : ℤ) * 12) = ((803 : ℝ) / 800) ^ (300 : ℕ) := by
    norm_num
  have hlo : (1274 : ℝ) / 419 < ((803 : ℝ) / 800) ^ (300 : ℕ) := by norm_num
  have hhi : ((803 : ℝ) / 800) ^ (300 : ℕ) < 28 / 9 := by norm_num
  have hq1 : (1 : ℝ) < ((803 : ℝ) / 800) ^ (300 : ℕ) := by nlinarith
  have hkey := calc_800k_key (((803 : ℝ) / 800) ^ (300 : ℕ)) (by nlinarith) hqeq
  have hpos : (0 : ℝ) < 0.28 * (((803 : ℝ) / 800) ^ (300 : ℕ) - 1) := by nlinarith
  constructor
  · have h5 : 180000 * (0.28 * (((803 : ℝ) / 800) ^ (300 : ℕ) - 1)) <
        34200 * ((803 : ℝ) / 800) ^ (300 : ℕ) := by nlinarith
    have h6 : 180000 * (0.28 * (((803 : ℝ) / 800) ^ (300 : ℕ) - 1)) <
        calculate_max_affordable 800000 0.05 0.045 25 *
          (0.28 * (((803 : ℝ) / 800) ^ (300 : ℕ) - 1)) := by
      rw [hkey]; exact h5
    exact (mul_lt_mul_right hpos).mp h6
  · have h7 : 34200 * ((803 : ℝ) / 800) ^ (300 : ℕ) <
        182000 * (0.28 * (((803 : ℝ) / 800) ^ (300 : ℕ) - 1)) := by nlinarith
    have h8 : calculate_max_affordable 800000 0.05 0.045 25 *
          (0.28 * (((803 : ℝ) / 800) ^ (300 : ℕ) - 1)) <
        182000 * (0.28 * (((803 : ℝ) / 800) ^ (300 : ℕ) - 1)) := by
      rw [hkey]; exact h7
    exact (mul_lt_mul_right hpos).mp h8

/-- C6 (amended): at price 800000, 5% down, 4.5% annual rate and 25 years the
intermediate quantities are loan = 760000, monthly rate = 0.00375 and 300
payments, and `calculate_max_affordable` returns about 181,000 (strictly
between 180,000 and 182,000), not a value in the claimed 168,000 - 172,000
range. -/
theorem C6_concrete_scenario :
    (800000 : ℝ) - 800000 * 0.05 = 760000 ∧
    (0.045 : ℝ) / 12 = 0.00375 ∧
    (25 : ℤ) * 12 = 300 ∧
    180000 < calculate_max_affordable 800000 0.05 0.045 25 ∧
    calculate_max_affordable 800000 0.05 0.045 25 < 182000 :=
  ⟨by norm_num, by norm_num, by norm_num, calc_800k_bounds.1, calc_800k_bounds.2⟩

/-- C6 counterexample: the value returned at the claimed scenario exceeds the
top of the claimed range 168,000 - 172,000 by more than the allowed 0.5%. -/
theorem C6_counterexample :
    172000 * (1 + 0.005) < calculate_max_affordable 800000 0.05 0.045 25 := by
  have h := calc_800k_bounds.1
  norm_num at h ⊢
  linarith

/-- C9: for every purchase price the regional comparison produces exactly one
row per entry of the regional rule table, whose region identifiers are exactly
the table's keys in the table's insertion order, and those identifiers contain
no duplicates (hence no duplicate and no missing regions). -/
theorem C9_one_row_per_region (home_price : ℝ) :
    (comparison_data home_price).map ComparisonRow.region = REGIONS.map Prod.fst ∧
      (REGIONS.map Prod.fst).Nodup := by
  constructor
  · simp only [comparison_data, List.map_map]
    rfl
  · decide

/-- C10: on every input tuple the two scripts' calculators agree: the `app2.py`
version returns the same annual income needed as the `app.py` version, together
with the down payment `price * down_payment_pct`. -/
theorem C10_two_apps_agree (price d r : ℝ) (a : ℤ) :
    calculate_max_affordable2 price d r a =
      (calculate_max_affordable price d r a, price * d) :=
  rfl

end
